import Mathlib

/-!
Shallow embedding of the `hackernews_parser` repository
(`src/hackernews_parser/`): the v1 and v2 entity types, the two parsers
`HackerNewsParserV1` / `HackerNewsParserV2`, and the FastAPI routing
endpoint from `api.py`.

JSON values are modelled by the inductive `Json`.  The Python parsers
perform no type validation on leaf values (a dataclass field annotated
`str` happily stores any object), so every scalar entity field is
embedded as a raw `Json` value.  Failures (`KeyError`, `TypeError`,
`ValueError`) are modelled by `Except ParseErr`.  Python truthiness
(`if sentiment:` on an arbitrary object) is `Json.truthy`.
-/

namespace HN

/-- A JSON value, as produced by Python's `json.load`: numbers are kept
abstract as rationals (the parsers only pass them through). -/
inductive Json where
  | null : Json
  | bool : Bool → Json
  | num : Rat → Json
  | str : String → Json
  | arr : List Json → Json
  | obj : List (String × Json) → Json

/-- Python truthiness of a JSON value: `None`, `False`, `0`, `""`, `[]`,
`{}` are falsy, everything else is truthy. -/
def Json.truthy : Json → Bool
  | .null => false
  | .bool b => b
  | .num q => decide (q ≠ 0)
  | .str s => decide (s ≠ "")
  | .arr xs => !xs.isEmpty
  | .obj fs => !fs.isEmpty

/-- Errors the parsing layer can raise: `KeyError(key)`, `TypeError`,
`ValueError(msg)`. -/
inductive ParseErr where
  | keyError (key : String)
  | typeError (msg : String)
  | valueError (msg : String)
  deriving DecidableEq

/-- Python `str(e)` on the exceptions above, as used by the API layer in
`f"Failed to parse data: {str(e)}"`; `str(KeyError('k'))` is `"'k'"`. -/
def ParseErr.toMessage : ParseErr → String
  | .keyError k => "'" ++ k ++ "'"
  | .typeError m => m
  | .valueError m => m

/-- Python `d[k]` with a string key: `KeyError` when the key is absent
from a dict, `TypeError` when the value is not a dict. -/
def Json.getItem : Json → String → Except ParseErr Json
  | .obj fs, k =>
    match fs.lookup k with
    | some v => .ok v
    | none => .error (.keyError k)
  | _, k => .error (.typeError ("value is not subscriptable by key " ++ k))

/-- Python `d.get(k, default)`: only dicts have `.get`. -/
def Json.dictGet : Json → String → Json → Except ParseErr Json
  | .obj fs, k, dflt => .ok ((fs.lookup k).getD dflt)
  | _, k, _ => .error (.typeError ("value has no attribute get for key " ++ k))

/-- Python iteration `for x in v`: lists yield elements, strings yield
one-character strings, dicts yield their keys, other values raise
`TypeError`. -/
def Json.pyIter : Json → Except ParseErr (List Json)
  | .arr xs => .ok xs
  | .str s => .ok (s.data.map fun c => Json.str (String.mk [c]))
  | .obj fs => .ok (fs.map fun kv => Json.str kv.1)
  | _ => .error (.typeError "value is not iterable")

/-- A Python list comprehension `[f(x) for x in xs]` where `f` may
raise: elements are processed left to right, the first error aborts. -/
def exceptMap {α : Type} (f : Json → Except ParseErr α) :
    List Json → Except ParseErr (List α)
  | [] => .ok []
  | x :: xs => do
    let a ← f x
    let rest ← exceptMap f xs
    return a :: rest

/-! ## Entity types (`entities/v1.py`, `entities/v2.py`) -/

namespace V1

/-- `entities/v1.py` `HackerNewsComment`. -/
structure HackerNewsComment where
  id : Json
  author : Json
  timestamp : Json
  text : Json

/-- `entities/v1.py` `HackerNewsStory`. -/
structure HackerNewsStory where
  id : Json
  title : Json
  url : Json
  domain : Json
  author : Json
  timestamp : Json
  points : Json
  rank : Json
  comments : List HackerNewsComment

/-- `entities/v1.py` `HackerNewsData`. -/
structure HackerNewsData where
  version : Json
  timestamp : Json
  stories : List HackerNewsStory

end V1

namespace V2

/-- `entities/v2.py` `SentimentAnalysis`. -/
structure SentimentAnalysis where
  score : Json
  confidence : Json
  aspects : Json

/-- The neutral default `SentimentAnalysis(0.0, 0.0, [])`. -/
def SentimentAnalysis.neutral : SentimentAnalysis :=
  ⟨Json.num 0, Json.num 0, Json.arr []⟩

/-- `entities/v2.py` `StoryRelationships`. -/
structure StoryRelationships where
  comment_count : Json
  engagement_score : Json
  comment_sentiment_avg : Json

/-- `entities/v2.py` `DatasetMetrics`. -/
structure DatasetMetrics where
  total_stories : Json
  total_comments : Json
  avg_sentiment : Json
  engagement_score : Json

/-- `entities/v2.py` `HackerNewsComment` (v1 fields plus sentiment).
The field is non-optional, exactly as the dataclass declares it and as
`from_v1` always populates it. -/
structure HackerNewsComment where
  id : Json
  author : Json
  timestamp : Json
  text : Json
  sentiment : SentimentAnalysis

/-- `entities/v2.py` `HackerNewsComment.from_v1`: the Python body uses
`sentiment or SentimentAnalysis(0.0, 0.0, [])`; `None` is falsy and a
dataclass instance is always truthy, so this is `Option.getD`. -/
def HackerNewsComment.from_v1 (c : V1.HackerNewsComment)
    (sentiment : Option SentimentAnalysis) : HackerNewsComment :=
  ⟨c.id, c.author, c.timestamp, c.text, sentiment.getD SentimentAnalysis.neutral⟩

/-- `entities/v2.py` `HackerNewsStory` (v1 fields plus sentiment and
relationships; the parser stores `None` relationships, hence `Option`). -/
structure HackerNewsStory where
  id : Json
  title : Json
  url : Json
  domain : Json
  author : Json
  timestamp : Json
  points : Json
  rank : Json
  comments : List HackerNewsComment
  sentiment : SentimentAnalysis
  relationships : Option StoryRelationships

/-- `entities/v2.py` `HackerNewsData` (v1 fields plus optional metrics). -/
structure HackerNewsData where
  version : Json
  timestamp : Json
  stories : List HackerNewsStory
  metrics : Option DatasetMetrics

end V2

/-! ## The v1 parser (`hackernews_parser_v1.py`) -/

/-- The mutable instance state of a parser: `self.data_path` (a file
path, abstracted to a key into the file-system model) and the cache
`self._data` set by `_load_data`. -/
structure ParserState where
  data_path : Option Nat
  dataCache : Option Json

/-- The `ValueError` message raised by `_load_data` when neither inline
data nor a configured path is available. -/
def noDataMsg : String := "`data` is required if `data_path` is not provided"

/-- `HackerNewsParserV1._load_data` (inherited unchanged by v2): inline
data overwrites the cache; otherwise the cache is served; otherwise the
configured path is read (`fs` models the file system); otherwise
`ValueError`.  Returns the data, the updated state, and whether the
file was read on this call. -/
def load_data (fs : Nat → Json) (data : Option Json) (s : ParserState) :
    Except ParseErr (Json × ParserState × Bool) :=
  match data with
  | some d => .ok (d, { s with dataCache := some d }, false)
  | none =>
    match s.dataCache with
    | some d => .ok (d, s, false)
    | none =>
      match s.data_path with
      | none => .error (.valueError noDataMsg)
      | some p => .ok (fs p, { s with dataCache := some (fs p) }, true)

namespace HackerNewsParserV1

/-- `HackerNewsParserV1._parse_comment`: the four required fields,
looked up in the order the dataclass call evaluates them. -/
def parse_comment (c : Json) : Except ParseErr V1.HackerNewsComment := do
  let i ← c.getItem "id"
  let a ← c.getItem "author"
  let ts ← c.getItem "timestamp"
  let tx ← c.getItem "text"
  return ⟨i, a, ts, tx⟩

/-- `HackerNewsParserV1._parse_story`: eight required fields, then
`story_data.get("comments", [])` parsed element-wise. -/
def parse_story (sd : Json) : Except ParseErr V1.HackerNewsStory := do
  let i ← sd.getItem "id"
  let t ← sd.getItem "title"
  let u ← sd.getItem "url"
  let dm ← sd.getItem "domain"
  let a ← sd.getItem "author"
  let ts ← sd.getItem "timestamp"
  let p ← sd.getItem "points"
  let r ← sd.getItem "rank"
  let cj ← sd.dictGet "comments" (Json.arr [])
  let items ← cj.pyIter
  let comments ← exceptMap parse_comment items
  return ⟨i, t, u, dm, a, ts, p, r, comments⟩

/-- The body of `HackerNewsParserV1.parse` after `_load_data`: required
`version`, `timestamp`, `stories`. -/
def parseData (raw : Json) : Except ParseErr V1.HackerNewsData := do
  let v ← raw.getItem "version"
  let ts ← raw.getItem "timestamp"
  let sj ← raw.getItem "stories"
  let items ← sj.pyIter
  let stories ← exceptMap parse_story items
  return ⟨v, ts, stories⟩

/-- `HackerNewsParserV1.parse`: `_load_data` (which mutates the
instance state even when the subsequent parsing fails) followed by the
pure parsing body. -/
def parse (fs : Nat → Json) (data : Option Json) (s : ParserState) :
    Except ParseErr V1.HackerNewsData × ParserState × Bool :=
  match load_data fs data s with
  | .error e => (.error e, s, false)
  | .ok (j, s', r) => (parseData j, s', r)

end HackerNewsParserV1

/-! ## The v2 parser (`hackernews_parser_v2.py`) -/

namespace HackerNewsParserV2

/-- `HackerNewsParserV2._parse_sentiment`: three required fields. -/
def parse_sentiment (j : Json) : Except ParseErr V2.SentimentAnalysis := do
  let sc ← j.getItem "score"
  let cf ← j.getItem "confidence"
  let asp ← j.getItem "aspects"
  return ⟨sc, cf, asp⟩

/-- `HackerNewsParserV2._parse_relationships`: three required fields. -/
def parse_relationships (j : Json) : Except ParseErr V2.StoryRelationships := do
  let cc ← j.getItem "comment_count"
  let es ← j.getItem "engagement_score"
  let csa ← j.getItem "comment_sentiment_avg"
  return ⟨cc, es, csa⟩

/-- The `if sentiment: ... else: sentiment = None` block of
`_parse_comment`: a truthy value is parsed, a falsy one yields `None`. -/
def opt_sentiment (j : Json) : Except ParseErr (Option V2.SentimentAnalysis) :=
  if j.truthy then (some ·) <$> parse_sentiment j else pure none

/-- The `if sentiment: ... else: SentimentAnalysis(0.0, 0.0, [])` block
of `_parse_story`: a truthy value is parsed, a falsy one yields the
neutral default. -/
def story_sentiment (j : Json) : Except ParseErr V2.SentimentAnalysis :=
  if j.truthy then parse_sentiment j else pure V2.SentimentAnalysis.neutral

/-- The `if relationships: ... else: relationships = None` block of
`_parse_story`. -/
def opt_relationships (j : Json) : Except ParseErr (Option V2.StoryRelationships) :=
  if j.truthy then (some ·) <$> parse_relationships j else pure none

/-- `HackerNewsParserV2._parse_comment`: the v1 fields via
`super()._parse_comment`, then `comment_data.get("sentiment", None)`,
parsed only when truthy, and `HackerNewsComment.from_v1`. -/
def parse_comment (c : Json) : Except ParseErr V2.HackerNewsComment := do
  let v1c ← HackerNewsParserV1.parse_comment c
  let sj ← c.dictGet "sentiment" Json.null
  let sOpt ← opt_sentiment sj
  return V2.HackerNewsComment.from_v1 v1c sOpt

/-- `HackerNewsParserV2._parse_story`: comments first, then the
truthiness-guarded sentiment (neutral default) and relationships
(`None` default), then the eight required fields in dataclass-call
order. -/
def parse_story (sd : Json) : Except ParseErr V2.HackerNewsStory := do
  let cj ← sd.dictGet "comments" (Json.arr [])
  let items ← cj.pyIter
  let comments ← exceptMap parse_comment items
  let sentJ ← sd.dictGet "sentiment" Json.null
  let sentiment ← story_sentiment sentJ
  let relJ ← sd.dictGet "relationships" Json.null
  let relationships ← opt_relationships relJ
  let i ← sd.getItem "id"
  let t ← sd.getItem "title"
  let u ← sd.getItem "url"
  let dm ← sd.getItem "domain"
  let a ← sd.getItem "author"
  let ts ← sd.getItem "timestamp"
  let p ← sd.getItem "points"
  let r ← sd.getItem "rank"
  return ⟨i, t, u, dm, a, ts, p, r, comments, sentiment, relationships⟩

/-- The inline metrics block of `HackerNewsParserV2.parse`: four
required fields of a truthy `metrics` value. -/
def parse_metrics (j : Json) : Except ParseErr V2.DatasetMetrics := do
  let tS ← j.getItem "total_stories"
  let tc ← j.getItem "total_comments"
  let av ← j.getItem "avg_sentiment"
  let es ← j.getItem "engagement_score"
  return ⟨tS, tc, av, es⟩

/-- The `if metrics: ... else: metrics = None` block of `parse`. -/
def opt_metrics (j : Json) : Except ParseErr (Option V2.DatasetMetrics) :=
  if j.truthy then (some ·) <$> parse_metrics j else pure none

/-- The body of `HackerNewsParserV2.parse` after `_load_data`: stories
first, then truthiness-guarded metrics (`None` default), then
`version` and `timestamp` in dataclass-call order. -/
def parseData (raw : Json) : Except ParseErr V2.HackerNewsData := do
  let sj ← raw.getItem "stories"
  let items ← sj.pyIter
  let stories ← exceptMap parse_story items
  let mJ ← raw.dictGet "metrics" Json.null
  let metrics ← opt_metrics mJ
  let v ← raw.getItem "version"
  let ts ← raw.getItem "timestamp"
  return ⟨v, ts, stories, metrics⟩

/-- `HackerNewsParserV2.parse`: inherited `_load_data` then the v2
parsing body. -/
def parse (fs : Nat → Json) (data : Option Json) (s : ParserState) :
    Except ParseErr V2.HackerNewsData × ParserState × Bool :=
  match load_data fs data s with
  | .error e => (.error e, s, false)
  | .ok (j, s', r) => (parseData j, s', r)

end HackerNewsParserV2

/-! ## The API layer (`api.py`) -/

/-- The body of a `POST /parse` response: either an error `detail`
string (from `HTTPException`) or the parsed dataset (returned as
`asdict(parsed_data)`, which is structure-preserving, so we keep the
dataset itself). -/
inductive ApiBody where
  | detail (msg : String)
  | v1 (d : V1.HackerNewsData)
  | v2 (d : V2.HackerNewsData)

/-- Python `f"{version}"` for the values a JSON `version` field can
hold (only strings matter for the routing messages). -/
def renderJson : Json → String
  | .str s => s
  | .num q => toString q
  | .bool b => if b then "True" else "False"
  | .null => "None"
  | .arr _ => "[...]"
  | .obj _ => "{...}"

/-- `api.py` `get_parser`: `"1.0"` selects v1 (`false`), `"2.0"`
selects v2 (`true`), anything else is a 400 `HTTPException` with the
unsupported-version message. -/
def selectParser (version : Json) : Except (Nat × String) Bool :=
  match version with
  | .str "1.0" => .ok false
  | .str "2.0" => .ok true
  | v => .error (400, "Unsupported version: " ++ renderJson v ++
      ". Supported versions: 1.0, 2.0")

/-- `api.py` `parse_hackernews_data` (`POST /parse`) on a JSON object
body (FastAPI guarantees a `Dict[str, Any]`): `data.get("version")`,
falsy → 400 missing-version; unsupported → 400 from `get_parser`
(re-raised as-is); parser failure → 500 with the exception's message;
success → 200 with the dataset.  Each request constructs a fresh
parser with no path, so parsing is the pure `parseData` body. -/
def parse_hackernews_data (fields : List (String × Json)) : Nat × ApiBody :=
  let version := (fields.lookup "version").getD Json.null
  if version.truthy then
    match selectParser version with
    | .error (c, m) => (c, .detail m)
    | .ok false =>
      match HackerNewsParserV1.parseData (.obj fields) with
      | .ok d => (200, .v1 d)
      | .error e => (500, .detail ("Failed to parse data: " ++ e.toMessage))
    | .ok true =>
      match HackerNewsParserV2.parseData (.obj fields) with
      | .ok d => (200, .v2 d)
      | .error e => (500, .detail ("Failed to parse data: " ++ e.toMessage))
  else (400, .detail "Missing 'version' field in request data")

/-! ## Derived definitions used by the specification statements -/

/-- The generation-1 projection of a v2 comment (its shared fields). -/
def eraseComment (c : V2.HackerNewsComment) : V1.HackerNewsComment :=
  ⟨c.id, c.author, c.timestamp, c.text⟩

/-- The generation-1 projection of a v2 story (its shared fields,
comments projected pointwise). -/
def eraseStory (s : V2.HackerNewsStory) : V1.HackerNewsStory :=
  ⟨s.id, s.title, s.url, s.domain, s.author, s.timestamp, s.points, s.rank,
    s.comments.map eraseComment⟩

/-- The generation-1 projection of a v2 dataset. -/
def eraseData (d : V2.HackerNewsData) : V1.HackerNewsData :=
  ⟨d.version, d.timestamp, d.stories.map eraseStory⟩

/-- A v1 comment viewed as a v2 comment with the neutral default
sentiment. -/
def enrichComment (c : V1.HackerNewsComment) : V2.HackerNewsComment :=
  ⟨c.id, c.author, c.timestamp, c.text, V2.SentimentAnalysis.neutral⟩

/-- A v1 story viewed as a v2 story with neutral sentiment and null
relationships. -/
def enrichStory (s : V1.HackerNewsStory) : V2.HackerNewsStory :=
  ⟨s.id, s.title, s.url, s.domain, s.author, s.timestamp, s.points, s.rank,
    s.comments.map enrichComment, V2.SentimentAnalysis.neutral, none⟩

/-- A v1 dataset viewed as a v2 dataset with null metrics. -/
def enrichData (d : V1.HackerNewsData) : V2.HackerNewsData :=
  ⟨d.version, d.timestamp, d.stories.map enrichStory, none⟩

mutual

/-- A generation-1-shaped JSON value: no `sentiment`, `relationships`
or `metrics` key anywhere in the tree. -/
def noExtKeys : Json → Bool
  | .arr xs => noExtKeysList xs
  | .obj fs => noExtKeysFields fs
  | _ => true

/-- `noExtKeys` on every element of an array. -/
def noExtKeysList : List Json → Bool
  | [] => true
  | x :: xs => noExtKeys x && noExtKeysList xs

/-- `noExtKeys` on an object's fields: every key is distinct from the
three generation-2 keys and every value is generation-1-shaped. -/
def noExtKeysFields : List (String × Json) → Bool
  | [] => true
  | (k, v) :: fs =>
    !(k == "sentiment" || k == "relationships" || k == "metrics") &&
      noExtKeys v && noExtKeysFields fs

end

/-- Drop every binding of key `k` from an object's field list. -/
def removeKey (k : String) (l : List (String × Json)) : List (String × Json) :=
  l.filter fun kv => !(kv.1 == k)

/-- Replace the value of every `metrics` binding by `null`, leaving all
other bindings untouched. -/
def mapMetricsNull : List (String × Json) → List (String × Json)
  | [] => []
  | (k, v) :: tl =>
    (k, if k = "metrics" then Json.null else v) :: mapMetricsNull tl

/-- A sequence of `parse` calls on one v1 parser instance (the v2
parser inherits `_load_data` unchanged), returning the final instance
state and how many times the configured file was read. -/
def runCalls (fs : Nat → Json) (calls : List (Option Json)) (s : ParserState) :
    ParserState × Nat :=
  match calls with
  | [] => (s, 0)
  | c :: rest =>
    let r := HackerNewsParserV1.parse fs c s
    let q := runCalls fs rest r.2.1
    (q.1, (if r.2.2 then 1 else 0) + q.2)

/-! ## Concrete inputs used by witnesses and counterexamples -/

/-- A concrete dataset object with no `stories` key. -/
def noStoriesObj : List (String × Json) :=
  [("version", Json.str "1.0"), ("timestamp", Json.str "t")]

/-- A concrete story object with all eight scalar fields but no
`comments` key. -/
def noCommentsStory : List (String × Json) :=
  [("id", Json.str "1"), ("title", Json.str "a"), ("url", Json.str "u"),
    ("domain", Json.str "d"), ("author", Json.str "au"),
    ("timestamp", Json.str "ts"), ("points", Json.num 3), ("rank", Json.num 1)]

/-- A concrete well-formed generation-1 comment object. -/
def okCommentFields : List (String × Json) :=
  [("id", Json.str "c1"), ("author", Json.str "x"),
    ("timestamp", Json.str "tc"), ("text", Json.str "hi")]

/-- A concrete well-formed generation-1 story object with one comment. -/
def fullStoryFields : List (String × Json) :=
  noCommentsStory ++ [("comments", Json.arr [Json.obj okCommentFields])]

/-- A concrete generation-1-shaped payload with one story and one
comment. -/
def gen1Payload : List (String × Json) :=
  [("version", Json.str "1.0"), ("timestamp", Json.str "t"),
    ("stories", Json.arr [Json.obj fullStoryFields])]

/-- A comment object whose `sentiment` key is present, non-null, and
the empty object (so truthy-falsy but not absent). -/
def emptySentimentComment : List (String × Json) :=
  okCommentFields ++ [("sentiment", Json.obj [])]

/-- A story object whose `relationships` key is present, non-null, and
the empty object. -/
def emptyRelStory : List (String × Json) :=
  noCommentsStory ++ [("relationships", Json.obj [])]

/-- A concrete generation-2 payload with populated `metrics`. -/
def metricsObj : List (String × Json) :=
  [("total_stories", Json.num 1), ("total_comments", Json.num 1),
    ("avg_sentiment", Json.num (7/10)), ("engagement_score", Json.num (3/4))]

/-- A concrete generation-2 payload carrying a populated `metrics`
object. -/
def v2MetricsPayload : List (String × Json) :=
  [("version", Json.str "2.0"), ("timestamp", Json.str "t"),
    ("stories", Json.arr []), ("metrics", Json.obj metricsObj)]

/-- A minimal well-formed dataset used for cache experiments. -/
def minimalData : Json :=
  Json.obj [("version", Json.str "1.0"), ("timestamp", Json.str "t"),
    ("stories", Json.arr [])]

/-- The v1 parse of `gen1Payload`, spelled out. -/
def gen1Parsed : V1.HackerNewsData :=
  ⟨Json.str "1.0", Json.str "t",
    [⟨Json.str "1", Json.str "a", Json.str "u", Json.str "d", Json.str "au",
      Json.str "ts", Json.num 3, Json.num 1,
      [⟨Json.str "c1", Json.str "x", Json.str "tc", Json.str "hi"⟩]⟩]⟩

/-! ## General lemmas about the embedding -/

theorem hnBind_eq_ok {ε α β : Type} {x : Except ε α} {f : α → Except ε β} {b : β} :
    x >>= f = .ok b ↔ ∃ a, x = .ok a ∧ f a = .ok b := by
  cases x <;> simp [Bind.bind, Except.bind]

theorem hnBind_error {ε α β : Type} (e : ε) (f : α → Except ε β) :
    (Except.error e : Except ε α) >>= f = .error e := rfl

theorem hnBind_ok (a : α) (f : α → Except ε β) :
    (Except.ok a : Except ε α) >>= f = f a := rfl

theorem hnPure_eq (a : α) : (pure a : Except ε α) = .ok a := rfl

theorem hnMap_eq_ok {ε α β : Type} {x : Except ε α} {f : α → β} {b : β} :
    f <$> x = .ok b ↔ ∃ a, x = .ok a ∧ b = f a := by
  cases x <;> simp [Functor.map, Except.map, eq_comm]

theorem lookup_mapMetricsNull_ne {k : String} (hk : k ≠ "metrics")
    (l : List (String × Json)) :
    (mapMetricsNull l).lookup k = l.lookup k := by
  induction l with
  | nil => rfl
  | cons hd tl ih =>
    obtain ⟨a, b⟩ := hd
    by_cases ha : a = "metrics"
    · subst ha
      have h2 : (k == "metrics") = false := beq_eq_false_iff_ne.mpr hk
      simp [mapMetricsNull, List.lookup, h2, ih]
    · simp [mapMetricsNull, List.lookup, ha, ih]

theorem getItem_mapMetricsNull {k : String} (hk : k ≠ "metrics")
    (l : List (String × Json)) :
    (Json.obj (mapMetricsNull l)).getItem k = (Json.obj l).getItem k := by
  simp [Json.getItem, lookup_mapMetricsNull_ne hk]

theorem dictGet_mapMetricsNull (l : List (String × Json)) :
    (Json.obj (mapMetricsNull l)).dictGet "metrics" Json.null = .ok Json.null := by
  have : ∀ l' : List (String × Json),
      (mapMetricsNull l').lookup "metrics" = none ∨
      (mapMetricsNull l').lookup "metrics" = some Json.null := by
    intro l'
    induction l' with
    | nil => exact Or.inl rfl
    | cons hd tl ih =>
      obtain ⟨a, b⟩ := hd
      by_cases ha : a = "metrics"
      · subst ha
        simp [mapMetricsNull, List.lookup]
      · have h2 : (("metrics" : String) == a) = false :=
          beq_eq_false_iff_ne.mpr (Ne.symm ha)
        simpa [mapMetricsNull, ha, List.lookup, h2] using ih
  rcases this l with h | h <;> simp [Json.dictGet, h]

theorem lookup_append_ne {k a : String} (b : Json) (l : List (String × Json))
    (hne : k ≠ a) : (l ++ [(a, b)]).lookup k = l.lookup k := by
  induction l with
  | nil =>
    have hf : (k == a) = false := beq_eq_false_iff_ne.mpr hne
    simp [List.lookup, hf]
  | cons hd tl ih =>
    obtain ⟨k', v'⟩ := hd
    simp only [List.cons_append, List.lookup]
    cases hkk : (k == k') with
    | false => exact ih
    | true => rfl

theorem lookup_append_none {a : String} (b : Json) {l : List (String × Json)}
    (h : l.lookup a = none) : (l ++ [(a, b)]).lookup a = some b := by
  induction l with
  | nil => simp [List.lookup]
  | cons hd tl ih =>
    obtain ⟨k', v'⟩ := hd
    simp only [List.lookup] at h
    simp only [List.cons_append, List.lookup]
    cases hkk : (a == k') <;> simp only [hkk] at h ⊢
    · exact ih h
    · exact absurd h (by simp)

/-! ## Inversion and construction lemmas for the parsing chains -/

theorem parse_comment_v1_inv {c : Json} {out : V1.HackerNewsComment}
    (h : HackerNewsParserV1.parse_comment c = .ok out) :
    ∃ i a ts tx, c.getItem "id" = .ok i ∧ c.getItem "author" = .ok a ∧
      c.getItem "timestamp" = .ok ts ∧ c.getItem "text" = .ok tx ∧
      out = ⟨i, a, ts, tx⟩ := by
  simp only [HackerNewsParserV1.parse_comment] at h
  rw [hnBind_eq_ok] at h; obtain ⟨i, hi, h⟩ := h
  rw [hnBind_eq_ok] at h; obtain ⟨a, ha, h⟩ := h
  rw [hnBind_eq_ok] at h; obtain ⟨ts, hts, h⟩ := h
  rw [hnBind_eq_ok] at h; obtain ⟨tx, htx, h⟩ := h
  simp only [hnPure_eq, Except.ok.injEq] at h
  exact ⟨i, a, ts, tx, hi, ha, hts, htx, h.symm⟩

theorem parse_comment_v1_eq {c i a ts tx : Json}
    (hi : c.getItem "id" = .ok i) (ha : c.getItem "author" = .ok a)
    (hts : c.getItem "timestamp" = .ok ts) (htx : c.getItem "text" = .ok tx) :
    HackerNewsParserV1.parse_comment c = .ok ⟨i, a, ts, tx⟩ := by
  simp [HackerNewsParserV1.parse_comment, hi, ha, hts, htx, hnBind_ok, hnPure_eq]

theorem parse_comment_v2_inv {c : Json} {out : V2.HackerNewsComment}
    (h : HackerNewsParserV2.parse_comment c = .ok out) :
    ∃ v1c sj sOpt, HackerNewsParserV1.parse_comment c = .ok v1c ∧
      c.dictGet "sentiment" Json.null = .ok sj ∧
      HackerNewsParserV2.opt_sentiment sj = .ok sOpt ∧
      out = V2.HackerNewsComment.from_v1 v1c sOpt := by
  simp only [HackerNewsParserV2.parse_comment] at h
  rw [hnBind_eq_ok] at h; obtain ⟨v1c, hv, h⟩ := h
  rw [hnBind_eq_ok] at h; obtain ⟨sj, hs, h⟩ := h
  rw [hnBind_eq_ok] at h; obtain ⟨sOpt, ho, h⟩ := h
  simp only [hnPure_eq, Except.ok.injEq] at h
  exact ⟨v1c, sj, sOpt, hv, hs, ho, h.symm⟩

theorem parse_comment_v2_eq {c : Json} {v1c : V1.HackerNewsComment} {sj : Json}
    {sOpt : Option V2.SentimentAnalysis}
    (hv : HackerNewsParserV1.parse_comment c = .ok v1c)
    (hs : c.dictGet "sentiment" Json.null = .ok sj)
    (ho : HackerNewsParserV2.opt_sentiment sj = .ok sOpt) :
    HackerNewsParserV2.parse_comment c = .ok (V2.HackerNewsComment.from_v1 v1c sOpt) := by
  simp [HackerNewsParserV2.parse_comment, hv, hs, ho, hnBind_ok, hnPure_eq]

theorem parse_story_v1_inv {sd : Json} {out : V1.HackerNewsStory}
    (h : HackerNewsParserV1.parse_story sd = .ok out) :
    ∃ i t u dm a ts p r cj items cs,
      sd.getItem "id" = .ok i ∧ sd.getItem "title" = .ok t ∧
      sd.getItem "url" = .ok u ∧ sd.getItem "domain" = .ok dm ∧
      sd.getItem "author" = .ok a ∧ sd.getItem "timestamp" = .ok ts ∧
      sd.getItem "points" = .ok p ∧ sd.getItem "rank" = .ok r ∧
      sd.dictGet "comments" (Json.arr []) = .ok cj ∧ cj.pyIter = .ok items ∧
      exceptMap HackerNewsParserV1.parse_comment items = .ok cs ∧
      out = ⟨i, t, u, dm, a, ts, p, r, cs⟩ := by
  simp only [HackerNewsParserV1.parse_story] at h
  rw [hnBind_eq_ok] at h; obtain ⟨i, hi, h⟩ := h
  rw [hnBind_eq_ok] at h; obtain ⟨t, ht, h⟩ := h
  rw [hnBind_eq_ok] at h; obtain ⟨u, hu, h⟩ := h
  rw [hnBind_eq_ok] at h; obtain ⟨dm, hdm, h⟩ := h
  rw [hnBind_eq_ok] at h; obtain ⟨a, ha, h⟩ := h
  rw [hnBind_eq_ok] at h; obtain ⟨ts, hts, h⟩ := h
  rw [hnBind_eq_ok] at h; obtain ⟨p, hp, h⟩ := h
  rw [hnBind_eq_ok] at h; obtain ⟨r, hr, h⟩ := h
  rw [hnBind_eq_ok] at h; obtain ⟨cj, hcj, h⟩ := h
  rw [hnBind_eq_ok] at h; obtain ⟨items, hit, h⟩ := h
  rw [hnBind_eq_ok] at h; obtain ⟨cs, hcs, h⟩ := h
  simp only [hnPure_eq, Except.ok.injEq] at h
  exact ⟨i, t, u, dm, a, ts, p, r, cj, items, cs,
    hi, ht, hu, hdm, ha, hts, hp, hr, hcj, hit, hcs, h.symm⟩

theorem parse_story_v1_eq {sd i t u dm a ts p r cj : Json} {items : List Json}
    {cs : List V1.HackerNewsComment}
    (hi : sd.getItem "id" = .ok i) (ht : sd.getItem "title" = .ok t)
    (hu : sd.getItem "url" = .ok u) (hdm : sd.getItem "domain" = .ok dm)
    (ha : sd.getItem "author" = .ok a) (hts : sd.getItem "timestamp" = .ok ts)
    (hp : sd.getItem "points" = .ok p) (hr : sd.getItem "rank" = .ok r)
    (hcj : sd.dictGet "comments" (Json.arr []) = .ok cj)
    (hit : cj.pyIter = .ok items)
    (hcs : exceptMap HackerNewsParserV1.parse_comment items = .ok cs) :
    HackerNewsParserV1.parse_story sd = .ok ⟨i, t, u, dm, a, ts, p, r, cs⟩ := by
  simp [HackerNewsParserV1.parse_story, hi, ht, hu, hdm, ha, hts, hp, hr,
    hcj, hit, hcs, hnBind_ok, hnPure_eq]

theorem parse_story_v2_inv {sd : Json} {out : V2.HackerNewsStory}
    (h : HackerNewsParserV2.parse_story sd = .ok out) :
    ∃ cj items cs sj st rj rel i t u dm a ts p r,
      sd.dictGet "comments" (Json.arr []) = .ok cj ∧ cj.pyIter = .ok items ∧
      exceptMap HackerNewsParserV2.parse_comment items = .ok cs ∧
      sd.dictGet "sentiment" Json.null = .ok sj ∧
      HackerNewsParserV2.story_sentiment sj = .ok st ∧
      sd.dictGet "relationships" Json.null = .ok rj ∧
      HackerNewsParserV2.opt_relationships rj = .ok rel ∧
      sd.getItem "id" = .ok i ∧ sd.getItem "title" = .ok t ∧
      sd.getItem "url" = .ok u ∧ sd.getItem "domain" = .ok dm ∧
      sd.getItem "author" = .ok a ∧ sd.getItem "timestamp" = .ok ts ∧
      sd.getItem "points" = .ok p ∧ sd.getItem "rank" = .ok r ∧
      out = ⟨i, t, u, dm, a, ts, p, r, cs, st, rel⟩ := by
  simp only [HackerNewsParserV2.parse_story] at h
  rw [hnBind_eq_ok] at h; obtain ⟨cj, hcj, h⟩ := h
  rw [hnBind_eq_ok] at h; obtain ⟨items, hit, h⟩ := h
  rw [hnBind_eq_ok] at h; obtain ⟨cs, hcs, h⟩ := h
  rw [hnBind_eq_ok] at h; obtain ⟨sj, hsj, h⟩ := h
  rw [hnBind_eq_ok] at h; obtain ⟨st, hst, h⟩ := h
  rw [hnBind_eq_ok] at h; obtain ⟨rj, hrj, h⟩ := h
  rw [hnBind_eq_ok] at h; obtain ⟨rel, hrel, h⟩ := h
  rw [hnBind_eq_ok] at h; obtain ⟨i, hi, h⟩ := h
  rw [hnBind_eq_ok] at h; obtain ⟨t, ht, h⟩ := h
  rw [hnBind_eq_ok] at h; obtain ⟨u, hu, h⟩ := h
  rw [hnBind_eq_ok] at h; obtain ⟨dm, hdm, h⟩ := h
  rw [hnBind_eq_ok] at h; obtain ⟨a, ha, h⟩ := h
  rw [hnBind_eq_ok] at h; obtain ⟨ts, hts, h⟩ := h
  rw [hnBind_eq_ok] at h; obtain ⟨p, hp, h⟩ := h
  rw [hnBind_eq_ok] at h; obtain ⟨r, hr, h⟩ := h
  simp only [hnPure_eq, Except.ok.injEq] at h
  exact ⟨cj, items, cs, sj, st, rj, rel, i, t, u, dm, a, ts, p, r,
    hcj, hit, hcs, hsj, hst, hrj, hrel, hi, ht, hu, hdm, ha, hts, hp, hr, h.symm⟩

theorem parse_story_v2_eq {sd cj sj rj i t u dm a ts p r : Json}
    {items : List Json} {cs : List V2.HackerNewsComment}
    {st : V2.SentimentAnalysis} {rel : Option V2.StoryRelationships}
    (hcj : sd.dictGet "comments" (Json.arr []) = .ok cj)
    (hit : cj.pyIter = .ok items)
    (hcs : exceptMap HackerNewsParserV2.parse_comment items = .ok cs)
    (hsj : sd.dictGet "sentiment" Json.null = .ok sj)
    (hst : HackerNewsParserV2.story_sentiment sj = .ok st)
    (hrj : sd.dictGet "relationships" Json.null = .ok rj)
    (hrel : HackerNewsParserV2.opt_relationships rj = .ok rel)
    (hi : sd.getItem "id" = .ok i) (ht : sd.getItem "title" = .ok t)
    (hu : sd.getItem "url" = .ok u) (hdm : sd.getItem "domain" = .ok dm)
    (ha : sd.getItem "author" = .ok a) (hts : sd.getItem "timestamp" = .ok ts)
    (hp : sd.getItem "points" = .ok p) (hr : sd.getItem "rank" = .ok r) :
    HackerNewsParserV2.parse_story sd = .ok ⟨i, t, u, dm, a, ts, p, r, cs, st, rel⟩ := by
  simp [HackerNewsParserV2.parse_story, hcj, hit, hcs, hsj, hst, hrj, hrel,
    hi, ht, hu, hdm, ha, hts, hp, hr, hnBind_ok, hnPure_eq]

theorem parseData_v1_inv {raw : Json} {out : V1.HackerNewsData}
    (h : HackerNewsParserV1.parseData raw = .ok out) :
    ∃ v ts sj items ss,
      raw.getItem "version" = .ok v ∧ raw.getItem "timestamp" = .ok ts ∧
      raw.getItem "stories" = .ok sj ∧ sj.pyIter = .ok items ∧
      exceptMap HackerNewsParserV1.parse_story items = .ok ss ∧
      out = ⟨v, ts, ss⟩ := by
  simp only [HackerNewsParserV1.parseData] at h
  rw [hnBind_eq_ok] at h; obtain ⟨v, hv, h⟩ := h
  rw [hnBind_eq_ok] at h; obtain ⟨ts, hts, h⟩ := h
  rw [hnBind_eq_ok] at h; obtain ⟨sj, hsj, h⟩ := h
  rw [hnBind_eq_ok] at h; obtain ⟨items, hit, h⟩ := h
  rw [hnBind_eq_ok] at h; obtain ⟨ss, hss, h⟩ := h
  simp only [hnPure_eq, Except.ok.injEq] at h
  exact ⟨v, ts, sj, items, ss, hv, hts, hsj, hit, hss, h.symm⟩

theorem parseData_v1_eq {raw v ts sj : Json} {items : List Json}
    {ss : List V1.HackerNewsStory}
    (hv : raw.getItem "version" = .ok v) (hts : raw.getItem "timestamp" = .ok ts)
    (hsj : raw.getItem "stories" = .ok sj) (hit : sj.pyIter = .ok items)
    (hss : exceptMap HackerNewsParserV1.parse_story items = .ok ss) :
    HackerNewsParserV1.parseData raw = .ok ⟨v, ts, ss⟩ := by
  simp [HackerNewsParserV1.parseData, hv, hts, hsj, hit, hss, hnBind_ok, hnPure_eq]

theorem parseData_v2_inv {raw : Json} {out : V2.HackerNewsData}
    (h : HackerNewsParserV2.parseData raw = .ok out) :
    ∃ sj items ss mJ m v ts,
      raw.getItem "stories" = .ok sj ∧ sj.pyIter = .ok items ∧
      exceptMap HackerNewsParserV2.parse_story items = .ok ss ∧
      raw.dictGet "metrics" Json.null = .ok mJ ∧
      HackerNewsParserV2.opt_metrics mJ = .ok m ∧
      raw.getItem "version" = .ok v ∧ raw.getItem "timestamp" = .ok ts ∧
      out = ⟨v, ts, ss, m⟩ := by
  simp only [HackerNewsParserV2.parseData] at h
  rw [hnBind_eq_ok] at h; obtain ⟨sj, hsj, h⟩ := h
  rw [hnBind_eq_ok] at h; obtain ⟨items, hit, h⟩ := h
  rw [hnBind_eq_ok] at h; obtain ⟨ss, hss, h⟩ := h
  rw [hnBind_eq_ok] at h; obtain ⟨mJ, hmJ, h⟩ := h
  rw [hnBind_eq_ok] at h; obtain ⟨m, hm, h⟩ := h
  rw [hnBind_eq_ok] at h; obtain ⟨v, hv, h⟩ := h
  rw [hnBind_eq_ok] at h; obtain ⟨ts, hts, h⟩ := h
  simp only [hnPure_eq, Except.ok.injEq] at h
  exact ⟨sj, items, ss, mJ, m, v, ts, hsj, hit, hss, hmJ, hm, hv, hts, h.symm⟩

theorem parseData_v2_eq {raw sj mJ v ts : Json} {items : List Json}
    {ss : List V2.HackerNewsStory} {m : Option V2.DatasetMetrics}
    (hsj : raw.getItem "stories" = .ok sj) (hit : sj.pyIter = .ok items)
    (hss : exceptMap HackerNewsParserV2.parse_story items = .ok ss)
    (hmJ : raw.dictGet "metrics" Json.null = .ok mJ)
    (hm : HackerNewsParserV2.opt_metrics mJ = .ok m)
    (hv : raw.getItem "version" = .ok v) (hts : raw.getItem "timestamp" = .ok ts) :
    HackerNewsParserV2.parseData raw = .ok ⟨v, ts, ss, m⟩ := by
  simp [HackerNewsParserV2.parseData, hsj, hit, hss, hmJ, hm, hv, hts,
    hnBind_ok, hnPure_eq]

/-- A successful `getItem` forces the value to be an object and the
lookup to succeed. -/
theorem getItem_ok_inv {j : Json} {k : String} {v : Json}
    (h : j.getItem k = .ok v) :
    ∃ fs, j = .obj fs ∧ fs.lookup k = some v := by
  cases j <;> simp [Json.getItem] at h
  case obj fs =>
    cases hl : fs.lookup k with
    | none => rw [hl] at h; cases h
    | some w => rw [hl] at h; cases h; exact ⟨fs, rfl, hl⟩

theorem lookup_removeKey_self (k : String) (l : List (String × Json)) :
    (removeKey k l).lookup k = none := by
  induction l with
  | nil => rfl
  | cons hd tl ih =>
    obtain ⟨k', v'⟩ := hd
    by_cases hk : k' = k
    · subst hk
      simpa [removeKey, List.filter_cons] using ih
    · have h1 : (k' == k) = false := beq_eq_false_iff_ne.mpr hk
      have h2 : (k == k') = false := beq_eq_false_iff_ne.mpr (Ne.symm hk)
      simpa [removeKey, List.filter_cons, h1, h2, List.lookup] using ih

theorem lookup_removeKey_ne {k' k : String} (hne : k' ≠ k)
    (l : List (String × Json)) :
    (removeKey k l).lookup k' = l.lookup k' := by
  induction l with
  | nil => rfl
  | cons hd tl ih =>
    obtain ⟨a, b⟩ := hd
    by_cases hak : a = k
    · subst hak
      have h2 : (k' == a) = false := beq_eq_false_iff_ne.mpr hne
      simpa [removeKey, List.filter_cons, h2, List.lookup] using ih
    · have h1 : (a == k) = false := beq_eq_false_iff_ne.mpr hak
      simp only [removeKey, List.filter_cons, h1, Bool.not_false, if_true]
      simp only [List.lookup]
      cases hkk : (k' == a) with
      | true => rfl
      | false => exact ih

theorem getItem_removeKey {k' k : String} (hne : k' ≠ k)
    (l : List (String × Json)) :
    (Json.obj (removeKey k l)).getItem k' = (Json.obj l).getItem k' := by
  simp [Json.getItem, lookup_removeKey_ne hne]

theorem dictGet_removeKey {k' k : String} (hne : k' ≠ k)
    (l : List (String × Json)) (d : Json) :
    (Json.obj (removeKey k l)).dictGet k' d = (Json.obj l).dictGet k' d := by
  simp [Json.dictGet, lookup_removeKey_ne hne]

/-! ## C7: version routing at the API boundary -/

/-- C7: the `POST /parse` handler: a body with no `version` key (or an
empty-string version, which is falsy) yields 400 with the
missing-version message; version `"3.0"` yields 400 with the
unsupported-version message enumerating 1.0 and 2.0; the concrete body
`{"version": "1.0", "timestamp": "t", "stories": []}` yields 200 with
an empty story list; `{"version": "1.0"}` without `stories` yields 500
with a message containing `Failed to parse data` (the v1 parser looks
up `timestamp` before `stories`, so the wrapped `KeyError` names
`timestamp`; the claim only constrains the `Failed to parse data`
part).  Equality with these exact messages in particular gives the
containments the claim states. -/
theorem C7_version_routing :
    (∀ fields : List (String × Json),
      fields.lookup "version" = none ∨ fields.lookup "version" = some (.str "") →
      parse_hackernews_data fields =
        (400, .detail "Missing 'version' field in request data")) ∧
    (∀ fields : List (String × Json),
      fields.lookup "version" = some (.str "3.0") →
      parse_hackernews_data fields =
        (400, .detail "Unsupported version: 3.0. Supported versions: 1.0, 2.0")) ∧
    parse_hackernews_data
      [("version", .str "1.0"), ("timestamp", .str "t"), ("stories", .arr [])] =
      (200, .v1 ⟨.str "1.0", .str "t", []⟩) ∧
    parse_hackernews_data [("version", .str "1.0")] =
      (500, .detail ("Failed to parse data: " ++ "'timestamp'")) := by
  refine ⟨?_, ?_, ?_, ?_⟩
  · rintro fields (h | h) <;> simp [parse_hackernews_data, h, Json.truthy]
  · intro fields h
    simp [parse_hackernews_data, h, Json.truthy, selectParser, renderJson]
  · rfl
  · rfl

/-- C7 witness: the general 400 clauses of `C7_version_routing`
instantiated at concrete bodies. -/
theorem C7_version_routing_witness :
    parse_hackernews_data [("stories", Json.arr [])] =
      (400, .detail "Missing 'version' field in request data") ∧
    parse_hackernews_data [("version", Json.str "3.0"), ("stories", Json.arr [])] =
      (400, .detail "Unsupported version: 3.0. Supported versions: 1.0, 2.0") :=
  ⟨C7_version_routing.1 _ (Or.inl rfl), C7_version_routing.2.1 _ rfl⟩

/-! ## C3: `stories` is required, `comments` is optional -/

theorem getItem_append_single (fields : List (String × Json)) (a : String)
    (b : Json) (k : String) (hk : k ≠ a) :
    (Json.obj (fields ++ [(a, b)])).getItem k = (Json.obj fields).getItem k := by
  simp [Json.getItem, lookup_append_ne b fields hk]

theorem dictGet_append_single (fields : List (String × Json)) (a : String)
    (b : Json) (k : String) (d : Json) (hk : k ≠ a) :
    (Json.obj (fields ++ [(a, b)])).dictGet k d = (Json.obj fields).dictGet k d := by
  simp [Json.dictGet, lookup_append_ne b fields hk]

/-- C3: a dataset object with no `stories` key is rejected by both
parsers with a `KeyError` (v1 may first report `version`/`timestamp`
when those are also missing; v2 looks up `stories` first), while a
story object with no `comments` key parses — under either parser —
exactly like the same story with an explicit empty `comments` list,
and any successful parse of it has an empty comment sequence. -/
theorem C3_stories_required_comments_optional :
    (∀ dfields : List (String × Json), dfields.lookup "stories" = none →
      (∃ k, HackerNewsParserV1.parseData (.obj dfields) = .error (.keyError k)) ∧
      HackerNewsParserV2.parseData (.obj dfields) = .error (.keyError "stories")) ∧
    (∀ sfields : List (String × Json), sfields.lookup "comments" = none →
      HackerNewsParserV1.parse_story (.obj sfields) =
        HackerNewsParserV1.parse_story (.obj (sfields ++ [("comments", Json.arr [])])) ∧
      HackerNewsParserV2.parse_story (.obj sfields) =
        HackerNewsParserV2.parse_story (.obj (sfields ++ [("comments", Json.arr [])])) ∧
      (∀ t, HackerNewsParserV1.parse_story (.obj sfields) = .ok t → t.comments = []) ∧
      (∀ t, HackerNewsParserV2.parse_story (.obj sfields) = .ok t → t.comments = [])) := by
  constructor
  · intro dfields h
    constructor
    · cases hv : dfields.lookup "version" with
      | none =>
        exact ⟨"version", by
          simp [HackerNewsParserV1.parseData, Json.getItem, hv, hnBind_error]⟩
      | some v =>
        cases ht : dfields.lookup "timestamp" with
        | none =>
          exact ⟨"timestamp", by
            simp [HackerNewsParserV1.parseData, Json.getItem, hv, ht,
              hnBind_error, hnBind_ok]⟩
        | some t =>
          exact ⟨"stories", by
            simp [HackerNewsParserV1.parseData, Json.getItem, hv, ht, h,
              hnBind_error, hnBind_ok]⟩
    · simp [HackerNewsParserV2.parseData, Json.getItem, h, hnBind_error]
  · intro sfields h
    have hid := getItem_append_single sfields "comments" (Json.arr []) "id" (by decide)
    have hti := getItem_append_single sfields "comments" (Json.arr []) "title" (by decide)
    have hur := getItem_append_single sfields "comments" (Json.arr []) "url" (by decide)
    have hdo := getItem_append_single sfields "comments" (Json.arr []) "domain" (by decide)
    have hau := getItem_append_single sfields "comments" (Json.arr []) "author" (by decide)
    have hts := getItem_append_single sfields "comments" (Json.arr []) "timestamp" (by decide)
    have hpo := getItem_append_single sfields "comments" (Json.arr []) "points" (by decide)
    have hra := getItem_append_single sfields "comments" (Json.arr []) "rank" (by decide)
    have hse := dictGet_append_single sfields "comments" (Json.arr []) "sentiment"
      Json.null (by decide)
    have hre := dictGet_append_single sfields "comments" (Json.arr []) "relationships"
      Json.null (by decide)
    have hc1 : (Json.obj sfields).dictGet "comments" (Json.arr []) =
        .ok (Json.arr []) := by simp [Json.dictGet, h]
    have hc2 : (Json.obj (sfields ++ [("comments", Json.arr [])])).dictGet
        "comments" (Json.arr []) = .ok (Json.arr []) := by
      simp [Json.dictGet, lookup_append_none (Json.arr []) h]
    refine ⟨?_, ?_, ?_, ?_⟩
    · simp only [HackerNewsParserV1.parse_story, hid, hti, hur, hdo, hau, hts,
        hpo, hra, hc1, hc2]
    · simp only [HackerNewsParserV2.parse_story, hid, hti, hur, hdo, hau, hts,
        hpo, hra, hse, hre, hc1, hc2]
    · intro t ht
      simp only [HackerNewsParserV1.parse_story, hc1, hnBind_ok, hnBind_eq_ok,
        hnPure_eq, Except.ok.injEq, Json.pyIter, exceptMap] at ht
      obtain ⟨i, hi, t1, ht1, u, hu, dm, hdm, a, ha, ts, hts', p, hp, r, hr, hmk⟩ := ht
      subst hmk
      rfl
    · intro t ht
      simp only [HackerNewsParserV2.parse_story, hc1, hnBind_ok, Json.pyIter,
        exceptMap] at ht
      rw [hnBind_eq_ok] at ht; obtain ⟨sj, hsj, ht⟩ := ht
      rw [hnBind_eq_ok] at ht; obtain ⟨sent, hsent, ht⟩ := ht
      rw [hnBind_eq_ok] at ht; obtain ⟨rj, hrj, ht⟩ := ht
      rw [hnBind_eq_ok] at ht; obtain ⟨rel, hrel, ht⟩ := ht
      rw [hnBind_eq_ok] at ht; obtain ⟨i, hi, ht⟩ := ht
      rw [hnBind_eq_ok] at ht; obtain ⟨t1, ht1, ht⟩ := ht
      rw [hnBind_eq_ok] at ht; obtain ⟨u, hu, ht⟩ := ht
      rw [hnBind_eq_ok] at ht; obtain ⟨dm, hdm, ht⟩ := ht
      rw [hnBind_eq_ok] at ht; obtain ⟨a, ha, ht⟩ := ht
      rw [hnBind_eq_ok] at ht; obtain ⟨ts, hts', ht⟩ := ht
      rw [hnBind_eq_ok] at ht; obtain ⟨p, hp, ht⟩ := ht
      rw [hnBind_eq_ok] at ht; obtain ⟨r, hr, ht⟩ := ht
      simp only [hnPure_eq, Except.ok.injEq] at ht
      subst ht
      rfl

/-- C3 witness: the theorem applied to a concrete dataset without
`stories` and a concrete story without `comments`. -/
theorem C3_stories_required_comments_optional_witness :
    ((∃ k, HackerNewsParserV1.parseData (.obj noStoriesObj) =
        .error (.keyError k)) ∧
      HackerNewsParserV2.parseData (.obj noStoriesObj) =
        .error (.keyError "stories")) ∧
    (∀ t, HackerNewsParserV1.parse_story (.obj noCommentsStory) = .ok t →
      t.comments = []) :=
  ⟨C3_stories_required_comments_optional.1 noStoriesObj rfl,
    (C3_stories_required_comments_optional.2 noCommentsStory rfl).2.2.1⟩

/-! ## C9: falsy extension values are treated like absent keys -/

/-- C9: in the v2 parser a `sentiment`, `relationships` or `metrics`
key whose value is present but falsy — the empty object `{}` in
particular, whose truthiness is the final conjunct — behaves exactly
like an absent key: parsing is unchanged if the key is removed, a
falsy comment or story sentiment yields the neutral default, a falsy
relationships value yields null relationships, a falsy metrics value
yields null dataset metrics, and no missing-field error arises from
the sub-object's required keys. -/
theorem C9_falsy_is_absent :
    (∀ (cfields : List (String × Json)) (sJ : Json),
      cfields.lookup "sentiment" = some sJ → sJ.truthy = false →
      HackerNewsParserV2.parse_comment (.obj cfields) =
        HackerNewsParserV2.parse_comment (.obj (removeKey "sentiment" cfields)) ∧
      (∀ out, HackerNewsParserV2.parse_comment (.obj cfields) = .ok out →
        out.sentiment = V2.SentimentAnalysis.neutral)) ∧
    (∀ (sfields : List (String × Json)) (rJ : Json),
      sfields.lookup "relationships" = some rJ → rJ.truthy = false →
      HackerNewsParserV2.parse_story (.obj sfields) =
        HackerNewsParserV2.parse_story (.obj (removeKey "relationships" sfields)) ∧
      (∀ out, HackerNewsParserV2.parse_story (.obj sfields) = .ok out →
        out.relationships = none)) ∧
    (∀ (sfields : List (String × Json)) (sJ : Json),
      sfields.lookup "sentiment" = some sJ → sJ.truthy = false →
      ∀ out, HackerNewsParserV2.parse_story (.obj sfields) = .ok out →
        out.sentiment = V2.SentimentAnalysis.neutral) ∧
    (∀ (dfields : List (String × Json)) (mJ : Json),
      dfields.lookup "metrics" = some mJ → mJ.truthy = false →
      HackerNewsParserV2.parseData (.obj dfields) =
        HackerNewsParserV2.parseData (.obj (removeKey "metrics" dfields)) ∧
      (∀ out, HackerNewsParserV2.parseData (.obj dfields) = .ok out →
        out.metrics = none)) ∧
    (Json.obj []).truthy = false := by
  refine ⟨?_, ?_, ?_, ?_, rfl⟩
  · intro cfields sJ hl hf
    have hs1 : (Json.obj cfields).dictGet "sentiment" Json.null = .ok sJ := by
      simp [Json.dictGet, hl]
    have hs2 : (Json.obj (removeKey "sentiment" cfields)).dictGet "sentiment"
        Json.null = .ok Json.null := by
      simp [Json.dictGet, lookup_removeKey_self]
    have ho1 : HackerNewsParserV2.opt_sentiment sJ = .ok none := by
      simp [HackerNewsParserV2.opt_sentiment, hf, hnPure_eq]
    constructor
    · simp only [HackerNewsParserV2.parse_comment, HackerNewsParserV1.parse_comment,
        getItem_removeKey (show "id" ≠ "sentiment" by decide) cfields,
        getItem_removeKey (show "author" ≠ "sentiment" by decide) cfields,
        getItem_removeKey (show "timestamp" ≠ "sentiment" by decide) cfields,
        getItem_removeKey (show "text" ≠ "sentiment" by decide) cfields,
        hs1, hs2, ho1, hnBind_ok]
      rfl
    · intro out hout
      obtain ⟨v1c, sj, sOpt, hv, hs, ho, heq⟩ := parse_comment_v2_inv hout
      rw [hs1] at hs
      cases hs
      rw [ho1] at ho
      cases ho
      simp [heq, V2.HackerNewsComment.from_v1]
  · intro sfields rJ hl hf
    have hr1 : (Json.obj sfields).dictGet "relationships" Json.null = .ok rJ := by
      simp [Json.dictGet, hl]
    have hr2 : (Json.obj (removeKey "relationships" sfields)).dictGet
        "relationships" Json.null = .ok Json.null := by
      simp [Json.dictGet, lookup_removeKey_self]
    have ho1 : HackerNewsParserV2.opt_relationships rJ = .ok none := by
      simp [HackerNewsParserV2.opt_relationships, hf, hnPure_eq]
    constructor
    · simp only [HackerNewsParserV2.parse_story,
        getItem_removeKey (show "id" ≠ "relationships" by decide) sfields,
        getItem_removeKey (show "title" ≠ "relationships" by decide) sfields,
        getItem_removeKey (show "url" ≠ "relationships" by decide) sfields,
        getItem_removeKey (show "domain" ≠ "relationships" by decide) sfields,
        getItem_removeKey (show "author" ≠ "relationships" by decide) sfields,
        getItem_removeKey (show "timestamp" ≠ "relationships" by decide) sfields,
        getItem_removeKey (show "points" ≠ "relationships" by decide) sfields,
        getItem_removeKey (show "rank" ≠ "relationships" by decide) sfields,
        dictGet_removeKey (show "comments" ≠ "relationships" by decide) sfields,
        dictGet_removeKey (show "sentiment" ≠ "relationships" by decide) sfields,
        hr1, hr2, ho1, hnBind_ok]
      rfl
    · intro out hout
      obtain ⟨cj, items, cs, sj, st, rj, rel, i, t, u, dm, a, ts, p, r,
        hcj, hit, hcs, hsj, hst, hrj, hrel, hi, ht, hu, hdm, ha, hts, hp, hr, heq⟩ :=
        parse_story_v2_inv hout
      rw [hr1] at hrj
      cases hrj
      rw [ho1] at hrel
      cases hrel
      simp [heq]
  · intro sfields sJ hl hf out hout
    have hs1 : (Json.obj sfields).dictGet "sentiment" Json.null = .ok sJ := by
      simp [Json.dictGet, hl]
    have hst1 : HackerNewsParserV2.story_sentiment sJ =
        .ok V2.SentimentAnalysis.neutral := by
      simp [HackerNewsParserV2.story_sentiment, hf, hnPure_eq]
    obtain ⟨cj, items, cs, sj, st, rj, rel, i, t, u, dm, a, ts, p, r,
      hcj, hit, hcs, hsj, hst, hrj, hrel, hi, ht, hu, hdm, ha, hts, hp, hr, heq⟩ :=
      parse_story_v2_inv hout
    rw [hs1] at hsj
    cases hsj
    rw [hst1] at hst
    cases hst
    simp [heq]
  · intro dfields mJ hl hf
    have hm1 : (Json.obj dfields).dictGet "metrics" Json.null = .ok mJ := by
      simp [Json.dictGet, hl]
    have hm2 : (Json.obj (removeKey "metrics" dfields)).dictGet "metrics"
        Json.null = .ok Json.null := by
      simp [Json.dictGet, lookup_removeKey_self]
    have ho1 : HackerNewsParserV2.opt_metrics mJ = .ok none := by
      simp [HackerNewsParserV2.opt_metrics, hf, hnPure_eq]
    constructor
    · simp only [HackerNewsParserV2.parseData,
        getItem_removeKey (show "stories" ≠ "metrics" by decide) dfields,
        getItem_removeKey (show "version" ≠ "metrics" by decide) dfields,
        getItem_removeKey (show "timestamp" ≠ "metrics" by decide) dfields,
        hm1, hm2, ho1, hnBind_ok]
      rfl
    · intro out hout
      obtain ⟨sj, items, ss, mJ', m, v, ts, hsj, hit, hss, hmJ, hm, hv, hts, heq⟩ :=
        parseData_v2_inv hout
      rw [hm1] at hmJ
      cases hmJ
      rw [ho1] at hm
      cases hm
      simp [heq]

/-- C9 witness: a comment with `sentiment: {}` parses with the neutral
default, and a payload with `metrics: {}` parses with null metrics. -/
theorem C9_falsy_is_absent_witness :
    (∀ out, HackerNewsParserV2.parse_comment (.obj emptySentimentComment) =
      .ok out → out.sentiment = V2.SentimentAnalysis.neutral) ∧
    (∀ out, HackerNewsParserV2.parse_story (.obj emptyRelStory) = .ok out →
      out.relationships = none) :=
  ⟨(C9_falsy_is_absent.1 emptySentimentComment (Json.obj []) rfl rfl).2,
    (C9_falsy_is_absent.2.1 emptyRelStory (Json.obj []) rfl rfl).2⟩

/-! ## C2: null/absent sentiment defaults to neutral -/

/-- C2: when a comment object's `sentiment` key is absent or null, the
v2 parser succeeds at that position — exactly the v1-shared fields are
required — and the parsed comment carries the neutral default; when a
story object's `sentiment` key is absent or null, any successful v2
parse of the story carries the neutral default.  Every parsed v2
comment and story has a (non-null) `SentimentAnalysis` by construction:
the `sentiment` field of the result types is not optional. -/
theorem C2_sentiment_default :
    (∀ (cfields : List (String × Json)) (v1c : V1.HackerNewsComment),
      (cfields.lookup "sentiment" = none ∨
        cfields.lookup "sentiment" = some Json.null) →
      HackerNewsParserV1.parse_comment (.obj cfields) = .ok v1c →
      HackerNewsParserV2.parse_comment (.obj cfields) =
        .ok ⟨v1c.id, v1c.author, v1c.timestamp, v1c.text,
          V2.SentimentAnalysis.neutral⟩) ∧
    (∀ sfields : List (String × Json),
      (sfields.lookup "sentiment" = none ∨
        sfields.lookup "sentiment" = some Json.null) →
      ∀ out, HackerNewsParserV2.parse_story (.obj sfields) = .ok out →
        out.sentiment = V2.SentimentAnalysis.neutral) := by
  constructor
  · intro cfields v1c hl hv
    have hs : (Json.obj cfields).dictGet "sentiment" Json.null = .ok Json.null := by
      rcases hl with h | h <;> simp [Json.dictGet, h]
    have ho : HackerNewsParserV2.opt_sentiment Json.null = .ok none := rfl
    have := parse_comment_v2_eq hv hs ho
    simpa [V2.HackerNewsComment.from_v1] using this
  · intro sfields hl out hout
    have hs : (Json.obj sfields).dictGet "sentiment" Json.null = .ok Json.null := by
      rcases hl with h | h <;> simp [Json.dictGet, h]
    have hst : HackerNewsParserV2.story_sentiment Json.null =
        .ok V2.SentimentAnalysis.neutral := rfl
    obtain ⟨cj, items, cs, sj, st, rj, rel, i, t, u, dm, a, ts, p, r,
      hcj, hit, hcs, hsj, hst', hrj, hrel, hi, ht, hu, hdm, ha, hts, hp, hr, heq⟩ :=
      parse_story_v2_inv hout
    rw [hs] at hsj
    cases hsj
    rw [hst] at hst'
    cases hst'
    simp [heq]

/-- C2 witness: a concrete generation-1 comment (no `sentiment` key)
parsed by the v2 parser carries the neutral default. -/
theorem C2_sentiment_default_witness :
    HackerNewsParserV2.parse_comment (.obj okCommentFields) =
      .ok ⟨Json.str "c1", Json.str "x", Json.str "tc", Json.str "hi",
        V2.SentimentAnalysis.neutral⟩ :=
  C2_sentiment_default.1 okCommentFields
    ⟨Json.str "c1", Json.str "x", Json.str "tc", Json.str "hi"⟩
    (Or.inl rfl) rfl

/-! ## C4: story relationships policy -/

/-- C4 counterexample: the story `emptyRelStory` has a `relationships`
key that is present and non-null (the empty object `{}`), and all
three required sub-keys are absent — the claim predicts a
missing-field error, but the parser succeeds and stores null
relationships, because the Python guard is `if relationships:` and
`{}` is falsy. -/
theorem C4_relationships_counterexample :
    HackerNewsParserV2.parse_story (.obj emptyRelStory) =
      .ok ⟨Json.str "1", Json.str "a", Json.str "u", Json.str "d",
        Json.str "au", Json.str "ts", Json.num 3, Json.num 1, [],
        V2.SentimentAnalysis.neutral, none⟩ := rfl

/-- C4 (amended): for a story's `relationships` value: when it is
truthy (present, non-null and non-empty) its three fields are
extracted in order with a missing-field `KeyError` for the first
absent one, the extracted object becomes the story's `relationships`,
and an extraction failure fails the story parse; when it is absent,
null, or otherwise falsy, the parsed story's `relationships` is null
and no default object is synthesized. -/
theorem C4_relationships_policy :
    (∀ rf : List (String × Json),
      (rf.lookup "comment_count" = none →
        HackerNewsParserV2.parse_relationships (.obj rf) =
          .error (.keyError "comment_count")) ∧
      (∀ cc, rf.lookup "comment_count" = some cc →
        rf.lookup "engagement_score" = none →
        HackerNewsParserV2.parse_relationships (.obj rf) =
          .error (.keyError "engagement_score")) ∧
      (∀ cc es, rf.lookup "comment_count" = some cc →
        rf.lookup "engagement_score" = some es →
        rf.lookup "comment_sentiment_avg" = none →
        HackerNewsParserV2.parse_relationships (.obj rf) =
          .error (.keyError "comment_sentiment_avg")) ∧
      (∀ cc es csa, rf.lookup "comment_count" = some cc →
        rf.lookup "engagement_score" = some es →
        rf.lookup "comment_sentiment_avg" = some csa →
        HackerNewsParserV2.parse_relationships (.obj rf) = .ok ⟨cc, es, csa⟩)) ∧
    (∀ (sfields : List (String × Json)) (rJ : Json) out,
      (sfields.lookup "relationships").getD Json.null = rJ →
      HackerNewsParserV2.parse_story (.obj sfields) = .ok out →
      (rJ.truthy = false → out.relationships = none) ∧
      (rJ.truthy = true →
        ∃ rel, HackerNewsParserV2.parse_relationships rJ = .ok rel ∧
          out.relationships = some rel)) ∧
    (∀ (sfields : List (String × Json)) (rJ : Json) (e : ParseErr),
      (sfields.lookup "relationships").getD Json.null = rJ → rJ.truthy = true →
      HackerNewsParserV2.parse_relationships rJ = .error e →
      ∀ out, HackerNewsParserV2.parse_story (.obj sfields) ≠ .ok out) := by
  refine ⟨?_, ?_, ?_⟩
  · intro rf
    refine ⟨?_, ?_, ?_, ?_⟩
    · intro h
      simp [HackerNewsParserV2.parse_relationships, Json.getItem, h, hnBind_error]
    · intro cc h1 h2
      simp [HackerNewsParserV2.parse_relationships, Json.getItem, h1, h2,
        hnBind_error, hnBind_ok]
    · intro cc es h1 h2 h3
      simp [HackerNewsParserV2.parse_relationships, Json.getItem, h1, h2, h3,
        hnBind_error, hnBind_ok]
    · intro cc es csa h1 h2 h3
      simp [HackerNewsParserV2.parse_relationships, Json.getItem, h1, h2, h3,
        hnBind_ok, hnPure_eq]
  · intro sfields rJ out hget hout
    have hr : (Json.obj sfields).dictGet "relationships" Json.null = .ok rJ := by
      simp [Json.dictGet, hget]
    obtain ⟨cj, items, cs, sj, st, rj, rel, i, t, u, dm, a, ts, p, r,
      hcj, hit, hcs, hsj, hst, hrj, hrel, hi, ht, hu, hdm, ha, hts, hp, hr', heq⟩ :=
      parse_story_v2_inv hout
    rw [hr] at hrj
    cases hrj
    constructor
    · intro hf
      rw [show HackerNewsParserV2.opt_relationships rJ = .ok none by
        simp [HackerNewsParserV2.opt_relationships, hf, hnPure_eq]] at hrel
      cases hrel
      simp [heq]
    · intro htr
      rw [show HackerNewsParserV2.opt_relationships rJ =
          (some ·) <$> HackerNewsParserV2.parse_relationships rJ by
        simp [HackerNewsParserV2.opt_relationships, htr]] at hrel
      rw [hnMap_eq_ok] at hrel
      obtain ⟨relv, hok, hsome⟩ := hrel
      exact ⟨relv, hok, by simp [heq, hsome]⟩
  · intro sfields rJ e hget htr herr out hout
    have hr : (Json.obj sfields).dictGet "relationships" Json.null = .ok rJ := by
      simp [Json.dictGet, hget]
    obtain ⟨cj, items, cs, sj, st, rj, rel, i, t, u, dm, a, ts, p, r,
      hcj, hit, hcs, hsj, hst, hrj, hrel, hi, ht, hu, hdm, ha, hts, hp, hr', heq⟩ :=
      parse_story_v2_inv hout
    rw [hr] at hrj
    cases hrj
    rw [show HackerNewsParserV2.opt_relationships rJ =
        (some ·) <$> HackerNewsParserV2.parse_relationships rJ by
      simp [HackerNewsParserV2.opt_relationships, htr]] at hrel
    rw [herr] at hrel
    cases hrel

/-- C4 witness: the amended policy at concrete inputs — a populated
relationships object is extracted into the story, and an object
missing `comment_count` raises the missing-field error. -/
theorem C4_relationships_policy_witness :
    HackerNewsParserV2.parse_relationships
      (.obj [("comment_count", Json.num 1), ("engagement_score", Json.num 1),
        ("comment_sentiment_avg", Json.num 0)]) =
      .ok ⟨Json.num 1, Json.num 1, Json.num 0⟩ ∧
    HackerNewsParserV2.parse_relationships (.obj [("engagement_score", Json.num 1)]) =
      .error (.keyError "comment_count") :=
  ⟨(C4_relationships_policy.1 _).2.2.2 _ _ _ rfl rfl rfl,
    (C4_relationships_policy.1 _).1 rfl⟩

/-! ## C5: comment sentiment sub-object policy -/

/-- C5 counterexample: the comment `emptySentimentComment` has a
`sentiment` key that is present and non-null (the empty object `{}`)
with `score`/`confidence`/`aspects` all absent — the claim predicts a
missing-field error, but the parser succeeds with the neutral default
because `{}` is falsy under the `if sentiment:` guard. -/
theorem C5_sentiment_counterexample :
    HackerNewsParserV2.parse_comment (.obj emptySentimentComment) =
      .ok ⟨Json.str "c1", Json.str "x", Json.str "tc", Json.str "hi",
        V2.SentimentAnalysis.neutral⟩ := rfl

/-- C5 (amended): for a comment's `sentiment` value: when it is truthy
(present, non-null and non-empty) its `score`, `confidence`, `aspects`
are extracted in order with a missing-field `KeyError` for the first
absent one, the extracted object becomes the comment's sentiment, and
an extraction failure fails the comment parse; only when it is absent,
null, or otherwise falsy is the neutral default substituted. -/
theorem C5_sentiment_policy :
    (∀ sf : List (String × Json),
      (sf.lookup "score" = none →
        HackerNewsParserV2.parse_sentiment (.obj sf) =
          .error (.keyError "score")) ∧
      (∀ sc, sf.lookup "score" = some sc → sf.lookup "confidence" = none →
        HackerNewsParserV2.parse_sentiment (.obj sf) =
          .error (.keyError "confidence")) ∧
      (∀ sc cf, sf.lookup "score" = some sc → sf.lookup "confidence" = some cf →
        sf.lookup "aspects" = none →
        HackerNewsParserV2.parse_sentiment (.obj sf) =
          .error (.keyError "aspects")) ∧
      (∀ sc cf asp, sf.lookup "score" = some sc →
        sf.lookup "confidence" = some cf → sf.lookup "aspects" = some asp →
        HackerNewsParserV2.parse_sentiment (.obj sf) = .ok ⟨sc, cf, asp⟩)) ∧
    (∀ (cfields : List (String × Json)) (sJ : Json) out,
      (cfields.lookup "sentiment").getD Json.null = sJ →
      HackerNewsParserV2.parse_comment (.obj cfields) = .ok out →
      (sJ.truthy = false → out.sentiment = V2.SentimentAnalysis.neutral) ∧
      (sJ.truthy = true →
        ∃ st, HackerNewsParserV2.parse_sentiment sJ = .ok st ∧
          out.sentiment = st)) ∧
    (∀ (cfields : List (String × Json)) (sJ : Json) (e : ParseErr),
      (cfields.lookup "sentiment").getD Json.null = sJ → sJ.truthy = true →
      HackerNewsParserV2.parse_sentiment sJ = .error e →
      ∀ out, HackerNewsParserV2.parse_comment (.obj cfields) ≠ .ok out) := by
  refine ⟨?_, ?_, ?_⟩
  · intro sf
    refine ⟨?_, ?_, ?_, ?_⟩
    · intro h
      simp [HackerNewsParserV2.parse_sentiment, Json.getItem, h, hnBind_error]
    · intro sc h1 h2
      simp [HackerNewsParserV2.parse_sentiment, Json.getItem, h1, h2,
        hnBind_error, hnBind_ok]
    · intro sc cf h1 h2 h3
      simp [HackerNewsParserV2.parse_sentiment, Json.getItem, h1, h2, h3,
        hnBind_error, hnBind_ok]
    · intro sc cf asp h1 h2 h3
      simp [HackerNewsParserV2.parse_sentiment, Json.getItem, h1, h2, h3,
        hnBind_ok, hnPure_eq]
  · intro cfields sJ out hget hout
    have hs : (Json.obj cfields).dictGet "sentiment" Json.null = .ok sJ := by
      simp [Json.dictGet, hget]
    obtain ⟨v1c, sj, sOpt, hv, hsj, ho, heq⟩ := parse_comment_v2_inv hout
    rw [hs] at hsj
    cases hsj
    constructor
    · intro hf
      rw [show HackerNewsParserV2.opt_sentiment sJ = .ok none by
        simp [HackerNewsParserV2.opt_sentiment, hf, hnPure_eq]] at ho
      cases ho
      simp [heq, V2.HackerNewsComment.from_v1]
    · intro htr
      rw [show HackerNewsParserV2.opt_sentiment sJ =
          (some ·) <$> HackerNewsParserV2.parse_sentiment sJ by
        simp [HackerNewsParserV2.opt_sentiment, htr]] at ho
      rw [hnMap_eq_ok] at ho
      obtain ⟨st, hok, hsome⟩ := ho
      exact ⟨st, hok, by simp [heq, hsome, V2.HackerNewsComment.from_v1]⟩
  · intro cfields sJ e hget htr herr out hout
    have hs : (Json.obj cfields).dictGet "sentiment" Json.null = .ok sJ := by
      simp [Json.dictGet, hget]
    obtain ⟨v1c, sj, sOpt, hv, hsj, ho, heq⟩ := parse_comment_v2_inv hout
    rw [hs] at hsj
    cases hsj
    rw [show HackerNewsParserV2.opt_sentiment sJ =
        (some ·) <$> HackerNewsParserV2.parse_sentiment sJ by
      simp [HackerNewsParserV2.opt_sentiment, htr]] at ho
    rw [herr] at ho
    cases ho

/-- C5 witness: a populated sentiment object is extracted verbatim into
the comment, and one missing `score` raises the missing-field error. -/
theorem C5_sentiment_policy_witness :
    HackerNewsParserV2.parse_sentiment
      (.obj [("score", Json.num (4/5)), ("confidence", Json.num (1/2)),
        ("aspects", Json.arr [Json.str "positive"])]) =
      .ok ⟨Json.num (4/5), Json.num (1/2), Json.arr [Json.str "positive"]⟩ ∧
    HackerNewsParserV2.parse_sentiment (.obj [("confidence", Json.num 1)]) =
      .error (.keyError "score") :=
  ⟨(C5_sentiment_policy.1 _).2.2.2 _ _ _ rfl rfl rfl,
    (C5_sentiment_policy.1 _).1 rfl⟩

/-! ## C6: metrics optionality as a frame property -/

/-- C6: a generation-2 payload whose `metrics` key is null or absent
parses to null metrics (no default object), and nulling out the
`metrics` binding of any successfully parsed payload leaves every
other field of the result — version, timestamp, and all stories with
their nested content — unchanged. -/
theorem C6_metrics_optionality :
    (∀ dfields : List (String × Json),
      (dfields.lookup "metrics" = none ∨
        dfields.lookup "metrics" = some Json.null) →
      ∀ out, HackerNewsParserV2.parseData (.obj dfields) = .ok out →
        out.metrics = none) ∧
    (∀ (dfields : List (String × Json)) (out : V2.HackerNewsData),
      HackerNewsParserV2.parseData (.obj dfields) = .ok out →
      HackerNewsParserV2.parseData (.obj (mapMetricsNull dfields)) =
        .ok ⟨out.version, out.timestamp, out.stories, none⟩) := by
  constructor
  · intro dfields hl out hout
    have hm : (Json.obj dfields).dictGet "metrics" Json.null = .ok Json.null := by
      rcases hl with h | h <;> simp [Json.dictGet, h]
    obtain ⟨sj, items, ss, mJ, m, v, ts, hsj, hit, hss, hmJ, hmm, hv, hts, heq⟩ :=
      parseData_v2_inv hout
    rw [hm] at hmJ
    cases hmJ
    rw [show HackerNewsParserV2.opt_metrics Json.null = .ok none from rfl] at hmm
    cases hmm
    simp [heq]
  · intro dfields out hout
    obtain ⟨sj, items, ss, mJ, m, v, ts, hsj, hit, hss, hmJ, hmm, hv, hts, heq⟩ :=
      parseData_v2_inv hout
    have hsj' : (Json.obj (mapMetricsNull dfields)).getItem "stories" = .ok sj := by
      rw [getItem_mapMetricsNull (show ("stories" : String) ≠ "metrics" by decide)]
      exact hsj
    have hv' : (Json.obj (mapMetricsNull dfields)).getItem "version" = .ok v := by
      rw [getItem_mapMetricsNull (show ("version" : String) ≠ "metrics" by decide)]
      exact hv
    have hts' : (Json.obj (mapMetricsNull dfields)).getItem "timestamp" = .ok ts := by
      rw [getItem_mapMetricsNull (show ("timestamp" : String) ≠ "metrics" by decide)]
      exact hts
    have := parseData_v2_eq hsj' hit hss (dictGet_mapMetricsNull dfields)
      (show HackerNewsParserV2.opt_metrics Json.null = .ok none from rfl) hv' hts'
    rw [this]
    simp [heq]

/-- C6 witness: the frame clause applied to the concrete payload with
populated metrics — nulling `metrics` preserves everything else. -/
theorem C6_metrics_optionality_witness :
    HackerNewsParserV2.parseData (.obj (mapMetricsNull v2MetricsPayload)) =
      .ok ⟨Json.str "2.0", Json.str "t", [], none⟩ :=
  C6_metrics_optionality.2 v2MetricsPayload
    ⟨Json.str "2.0", Json.str "t", [],
      some ⟨Json.num 1, Json.num 1, Json.num (7/10), Json.num (3/4)⟩⟩ rfl

/-! ## C8 and C10: input sources and the instance cache -/

theorem parse_inline (fs : Nat → Json) (d : Json) (s : ParserState) :
    HackerNewsParserV1.parse fs (some d) s =
      (HackerNewsParserV1.parseData d, { s with dataCache := some d }, false) := rfl

theorem parse_cached (fs : Nat → Json) (p : Option Nat) (d : Json) :
    HackerNewsParserV1.parse fs none ⟨p, some d⟩ =
      (HackerNewsParserV1.parseData d, ⟨p, some d⟩, false) := rfl

theorem parse_noSource (fs : Nat → Json) :
    HackerNewsParserV1.parse fs none ⟨none, none⟩ =
      (.error (.valueError noDataMsg), ⟨none, none⟩, false) := rfl

theorem parse_readsFile (fs : Nat → Json) (pa : Nat) :
    HackerNewsParserV1.parse fs none ⟨some pa, none⟩ =
      (HackerNewsParserV1.parseData (fs pa), ⟨some pa, some (fs pa)⟩, true) := rfl

theorem runCalls_cached_zero (fs : Nat → Json) :
    ∀ (calls : List (Option Json)) (p : Option Nat) (d : Json),
      (runCalls fs calls ⟨p, some d⟩).2 = 0 := by
  intro calls
  induction calls with
  | nil => intro p d; rfl
  | cons c rest ih =>
    intro p d
    cases c with
    | some e => simp [runCalls, parse_inline, ih]
    | none => simp [runCalls, parse_cached, ih]

theorem runCalls_reads_le_one (fs : Nat → Json) :
    ∀ (calls : List (Option Json)) (s : ParserState),
      (runCalls fs calls s).2 ≤ 1 := by
  intro calls
  induction calls with
  | nil => intro s; simp [runCalls]
  | cons c rest ih =>
    intro s
    obtain ⟨p, cache⟩ := s
    cases c with
    | some d => simp [runCalls, parse_inline, runCalls_cached_zero]
    | none =>
      cases cache with
      | some d => simp [runCalls, parse_cached, runCalls_cached_zero]
      | none =>
        cases p with
        | none => simpa [runCalls, parse_noSource] using ih ⟨none, none⟩
        | some pa => simp [runCalls, parse_readsFile, runCalls_cached_zero]

/-- C8 counterexample: the claim quantifies over every call providing
neither inline data nor a configured path, but after a first inline
call populates the instance cache, a second no-argument call on the
same pathless instance — which provides neither — succeeds with the
cached dataset instead of failing with a configuration error. -/
theorem C8_no_source_counterexample :
    HackerNewsParserV1.parse (fun _ => Json.null) (some minimalData)
      ⟨none, none⟩ =
      (.ok ⟨Json.str "1.0", Json.str "t", []⟩, ⟨none, some minimalData⟩, false) ∧
    HackerNewsParserV1.parse (fun _ => Json.null) none ⟨none, some minimalData⟩ =
      (.ok ⟨Json.str "1.0", Json.str "t", []⟩, ⟨none, some minimalData⟩, false) :=
  ⟨rfl, rfl⟩

/-- C8 (amended): a parse call that provides no inline data, on an
instance with no configured path *and an empty cache* (in particular
every first call on a pathless instance), fails with the configuration
`ValueError` and leaves the state unchanged — for both parsers. -/
theorem C8_no_input_source_error (fs : Nat → Json) :
    HackerNewsParserV1.parse fs none ⟨none, none⟩ =
      (.error (.valueError noDataMsg), ⟨none, none⟩, false) ∧
    HackerNewsParserV2.parse fs none ⟨none, none⟩ =
      (.error (.valueError noDataMsg), ⟨none, none⟩, false) :=
  ⟨rfl, rfl⟩

/-- C8 witness: the amended statement at a concrete file system. -/
theorem C8_no_input_source_error_witness :
    HackerNewsParserV1.parse (fun _ => Json.null) none ⟨none, none⟩ =
      (.error (.valueError noDataMsg), ⟨none, none⟩, false) :=
  (C8_no_input_source_error (fun _ => Json.null)).1

/-- C10: (i) an inline call always overwrites the cache and reads no
file, whatever the prior state; (ii) a no-argument call on a cached
instance returns the parse of the cached object — no configuration
error, no file read; (iii) a file read happens only on a no-argument
call made while the cache is empty; (iv) over any sequence of calls on
one instance, the configured file is read at most once. -/
theorem C10_cache_discipline :
    (∀ (fs : Nat → Json) (d : Json) (s : ParserState),
      HackerNewsParserV1.parse fs (some d) s =
        (HackerNewsParserV1.parseData d, { s with dataCache := some d }, false)) ∧
    (∀ (fs : Nat → Json) (p : Option Nat) (d : Json),
      HackerNewsParserV1.parse fs none ⟨p, some d⟩ =
        (HackerNewsParserV1.parseData d, ⟨p, some d⟩, false)) ∧
    (∀ (fs : Nat → Json) (data : Option Json) (s : ParserState)
      (res : Except ParseErr V1.HackerNewsData) (s' : ParserState),
      HackerNewsParserV1.parse fs data s = (res, s', true) →
      data = none ∧ s.dataCache = none) ∧
    (∀ (fs : Nat → Json) (calls : List (Option Json)) (s : ParserState),
      (runCalls fs calls s).2 ≤ 1) := by
  refine ⟨parse_inline, parse_cached, ?_, fun fs calls s => runCalls_reads_le_one fs calls s⟩
  intro fs data s res s' h
  cases data with
  | some d =>
    rw [parse_inline] at h
    simp at h
  | none =>
    obtain ⟨p, cache⟩ := s
    cases cache with
    | some d =>
      rw [parse_cached] at h
      simp at h
    | none => exact ⟨rfl, rfl⟩

/-- C10 witness: clause (iii) applied to a concrete read — a
no-argument call on a fresh instance with a configured path reads the
file, and indeed that call passed no data and had an empty cache. -/
theorem C10_cache_discipline_witness :
    (none : Option Json) = none ∧
    (ParserState.mk (some 0) none).dataCache = none :=
  C10_cache_discipline.2.2.1 (fun _ => minimalData) none ⟨some 0, none⟩
    (HackerNewsParserV1.parseData minimalData) ⟨some 0, some minimalData⟩ rfl

/-! ## C1: cross-generation agreement and backward compatibility -/

theorem erase_comment_of_v2 {c : Json} {c2 : V2.HackerNewsComment}
    (h : HackerNewsParserV2.parse_comment c = .ok c2) :
    HackerNewsParserV1.parse_comment c = .ok (eraseComment c2) := by
  obtain ⟨v1c, sj, sOpt, hv, hs, ho, heq⟩ := parse_comment_v2_inv h
  subst heq
  exact hv

theorem exceptMap_erase_comments :
    ∀ {xs : List Json} {ys : List V2.HackerNewsComment},
      exceptMap HackerNewsParserV2.parse_comment xs = .ok ys →
      exceptMap HackerNewsParserV1.parse_comment xs = .ok (ys.map eraseComment) := by
  intro xs
  induction xs with
  | nil =>
    intro ys h
    simp only [exceptMap, Except.ok.injEq] at h
    subst h
    rfl
  | cons x xs ih =>
    intro ys h
    simp only [exceptMap] at h ⊢
    rw [hnBind_eq_ok] at h; obtain ⟨a, ha, h⟩ := h
    rw [hnBind_eq_ok] at h; obtain ⟨rest, hrest, h⟩ := h
    simp only [hnPure_eq, Except.ok.injEq] at h
    subst h
    rw [erase_comment_of_v2 ha, hnBind_ok, ih hrest, hnBind_ok]
    rfl

theorem erase_story_of_v2 {sd : Json} {t2 : V2.HackerNewsStory}
    (h : HackerNewsParserV2.parse_story sd = .ok t2) :
    HackerNewsParserV1.parse_story sd = .ok (eraseStory t2) := by
  obtain ⟨cj, items, cs, sj, st, rj, rel, i, t, u, dm, a, ts, p, r,
    hcj, hit, hcs, hsj, hst, hrj, hrel, hi, ht, hu, hdm, ha, hts, hp, hr, heq⟩ :=
    parse_story_v2_inv h
  have h1 := parse_story_v1_eq hi ht hu hdm ha hts hp hr hcj hit
    (exceptMap_erase_comments hcs)
  subst heq
  exact h1

theorem exceptMap_erase_stories :
    ∀ {xs : List Json} {ys : List V2.HackerNewsStory},
      exceptMap HackerNewsParserV2.parse_story xs = .ok ys →
      exceptMap HackerNewsParserV1.parse_story xs = .ok (ys.map eraseStory) := by
  intro xs
  induction xs with
  | nil =>
    intro ys h
    simp only [exceptMap, Except.ok.injEq] at h
    subst h
    rfl
  | cons x xs ih =>
    intro ys h
    simp only [exceptMap] at h ⊢
    rw [hnBind_eq_ok] at h; obtain ⟨a, ha, h⟩ := h
    rw [hnBind_eq_ok] at h; obtain ⟨rest, hrest, h⟩ := h
    simp only [hnPure_eq, Except.ok.injEq] at h
    subst h
    rw [erase_story_of_v2 ha, hnBind_ok, ih hrest, hnBind_ok]
    rfl

theorem erase_data_of_v2 {raw : Json} {d2 : V2.HackerNewsData}
    (h : HackerNewsParserV2.parseData raw = .ok d2) :
    HackerNewsParserV1.parseData raw = .ok (eraseData d2) := by
  obtain ⟨sj, items, ss, mJ, m, v, ts, hsj, hit, hss, hmJ, hm, hv, hts, heq⟩ :=
    parseData_v2_inv h
  have h1 := parseData_v1_eq hv hts hsj hit (exceptMap_erase_stories hss)
  subst heq
  exact h1

theorem nk_fields_lookup {fs : List (String × Json)} {k : String}
    (h : noExtKeysFields fs = true)
    (hk : k = "sentiment" ∨ k = "relationships" ∨ k = "metrics") :
    fs.lookup k = none := by
  induction fs with
  | nil => rfl
  | cons hd tl ih =>
    obtain ⟨a, v⟩ := hd
    simp only [noExtKeysFields, Bool.and_eq_true] at h
    obtain ⟨⟨hne, _⟩, htl⟩ := h
    simp only [Bool.not_eq_true', Bool.or_eq_false_iff, beq_eq_false_iff_ne] at hne
    have hak : (k == a) = false := by
      refine beq_eq_false_iff_ne.mpr ?_
      rcases hk with rfl | rfl | rfl
      · exact fun he => hne.1.1 he.symm
      · exact fun he => hne.1.2 he.symm
      · exact fun he => hne.2 he.symm
    simp only [List.lookup, hak]
    exact ih htl

theorem nk_fields_value {fs : List (String × Json)} {k : String} {v : Json}
    (h : noExtKeysFields fs = true) (hl : fs.lookup k = some v) :
    noExtKeys v = true := by
  induction fs with
  | nil => cases hl
  | cons hd tl ih =>
    obtain ⟨a, w⟩ := hd
    simp only [noExtKeysFields, Bool.and_eq_true] at h
    obtain ⟨⟨_, hw⟩, htl⟩ := h
    simp only [List.lookup] at hl
    cases hak : (k == a) with
    | true => rw [hak] at hl; cases hl; exact hw
    | false => rw [hak] at hl; exact ih htl hl

theorem nk_list_mem {xs : List Json} {x : Json} (h : noExtKeysList xs = true)
    (hx : x ∈ xs) : noExtKeys x = true := by
  induction xs with
  | nil => cases hx
  | cons y ys ih =>
    simp only [noExtKeysList, Bool.and_eq_true] at h
    rcases List.mem_cons.mp hx with rfl | hx'
    · exact h.1
    · exact ih h.2 hx'

theorem nk_pyIter {j : Json} {items : List Json} (h : noExtKeys j = true)
    (hit : j.pyIter = .ok items) : ∀ x ∈ items, noExtKeys x = true := by
  cases j with
  | arr xs =>
    simp only [Json.pyIter, Except.ok.injEq] at hit
    subst hit
    simp only [noExtKeys] at h
    exact fun x hx => nk_list_mem h hx
  | str s =>
    simp only [Json.pyIter, Except.ok.injEq] at hit
    subst hit
    intro x hx
    simp only [List.mem_map] at hx
    obtain ⟨c, _, rfl⟩ := hx
    rfl
  | obj fs =>
    simp only [Json.pyIter, Except.ok.injEq] at hit
    subst hit
    intro x hx
    simp only [List.mem_map] at hx
    obtain ⟨kv, _, rfl⟩ := hx
    rfl
  | null => simp [Json.pyIter] at hit
  | bool b => simp [Json.pyIter] at hit
  | num q => simp [Json.pyIter] at hit

theorem nk_comments_value {fs : List (String × Json)} {cj : Json}
    (h : noExtKeysFields fs = true)
    (hcj : (Json.obj fs).dictGet "comments" (Json.arr []) = .ok cj) :
    noExtKeys cj = true := by
  simp only [Json.dictGet, Except.ok.injEq] at hcj
  subst hcj
  cases hl : fs.lookup "comments" with
  | none => simp [hl, noExtKeys, noExtKeysList]
  | some v =>
    simp only [hl, Option.getD_some]
    exact nk_fields_value h hl

theorem nk_dictGet_null {fs : List (String × Json)} {k : String}
    (h : noExtKeysFields fs = true)
    (hk : k = "sentiment" ∨ k = "relationships" ∨ k = "metrics") :
    (Json.obj fs).dictGet k Json.null = .ok Json.null := by
  simp [Json.dictGet, nk_fields_lookup h hk]

theorem enrich_comment_of_v1 {c : Json} {c1 : V1.HackerNewsComment}
    (hn : noExtKeys c = true)
    (h : HackerNewsParserV1.parse_comment c = .ok c1) :
    HackerNewsParserV2.parse_comment c = .ok (enrichComment c1) := by
  obtain ⟨i, a, ts, tx, hi, ha, hts, htx, heq⟩ := parse_comment_v1_inv h
  obtain ⟨fs, rfl, hlk⟩ := getItem_ok_inv hi
  have hfs : noExtKeysFields fs = true := by simpa [noExtKeys] using hn
  exact parse_comment_v2_eq h (nk_dictGet_null hfs (Or.inl rfl)) rfl

theorem exceptMap_enrich_comments :
    ∀ {xs : List Json} {ys : List V1.HackerNewsComment},
      (∀ x ∈ xs, noExtKeys x = true) →
      exceptMap HackerNewsParserV1.parse_comment xs = .ok ys →
      exceptMap HackerNewsParserV2.parse_comment xs = .ok (ys.map enrichComment) := by
  intro xs
  induction xs with
  | nil =>
    intro ys _ h
    simp only [exceptMap, Except.ok.injEq] at h
    subst h
    rfl
  | cons x xs ih =>
    intro ys hmem h
    simp only [exceptMap] at h ⊢
    rw [hnBind_eq_ok] at h; obtain ⟨a, ha, h⟩ := h
    rw [hnBind_eq_ok] at h; obtain ⟨rest, hrest, h⟩ := h
    simp only [hnPure_eq, Except.ok.injEq] at h
    subst h
    rw [enrich_comment_of_v1 (hmem x (List.mem_cons_self x xs)) ha, hnBind_ok,
      ih (fun y hy => hmem y (List.mem_cons_of_mem x hy)) hrest, hnBind_ok]
    rfl

theorem enrich_story_of_v1 {sd : Json} {t1 : V1.HackerNewsStory}
    (hn : noExtKeys sd = true)
    (h : HackerNewsParserV1.parse_story sd = .ok t1) :
    HackerNewsParserV2.parse_story sd = .ok (enrichStory t1) := by
  obtain ⟨i, t, u, dm, a, ts, p, r, cj, items, cs,
    hi, ht, hu, hdm, ha, hts, hp, hr, hcj, hit, hcs, heq⟩ := parse_story_v1_inv h
  obtain ⟨fs, rfl, hlk⟩ := getItem_ok_inv hi
  have hfs : noExtKeysFields fs = true := by simpa [noExtKeys] using hn
  have hcn : noExtKeys cj = true := nk_comments_value hfs hcj
  have h2 := parse_story_v2_eq hcj hit
    (exceptMap_enrich_comments (nk_pyIter hcn hit) hcs)
    (nk_dictGet_null hfs (Or.inl rfl)) rfl
    (nk_dictGet_null hfs (Or.inr (Or.inl rfl))) rfl hi ht hu hdm ha hts hp hr
  subst heq
  exact h2

theorem exceptMap_enrich_stories :
    ∀ {xs : List Json} {ys : List V1.HackerNewsStory},
      (∀ x ∈ xs, noExtKeys x = true) →
      exceptMap HackerNewsParserV1.parse_story xs = .ok ys →
      exceptMap HackerNewsParserV2.parse_story xs = .ok (ys.map enrichStory) := by
  intro xs
  induction xs with
  | nil =>
    intro ys _ h
    simp only [exceptMap, Except.ok.injEq] at h
    subst h
    rfl
  | cons x xs ih =>
    intro ys hmem h
    simp only [exceptMap] at h ⊢
    rw [hnBind_eq_ok] at h; obtain ⟨a, ha, h⟩ := h
    rw [hnBind_eq_ok] at h; obtain ⟨rest, hrest, h⟩ := h
    simp only [hnPure_eq, Except.ok.injEq] at h
    subst h
    rw [enrich_story_of_v1 (hmem x (List.mem_cons_self x xs)) ha, hnBind_ok,
      ih (fun y hy => hmem y (List.mem_cons_of_mem x hy)) hrest, hnBind_ok]
    rfl

theorem enrich_data_of_v1 {raw : Json} {d1 : V1.HackerNewsData}
    (hn : noExtKeys raw = true)
    (h : HackerNewsParserV1.parseData raw = .ok d1) :
    HackerNewsParserV2.parseData raw = .ok (enrichData d1) := by
  obtain ⟨v, ts, sj, items, ss, hv, hts, hsj, hit, hss, heq⟩ := parseData_v1_inv h
  obtain ⟨fs, rfl, hlk⟩ := getItem_ok_inv hv
  have hfs : noExtKeysFields fs = true := by simpa [noExtKeys] using hn
  obtain ⟨fs', hfe, hlk'⟩ := getItem_ok_inv hsj
  cases hfe
  have hsn : noExtKeys sj = true := nk_fields_value hfs hlk'
  have h2 := parseData_v2_eq hsj hit
    (exceptMap_enrich_stories (nk_pyIter hsn hit) hss)
    (nk_dictGet_null hfs (Or.inr (Or.inr rfl))) rfl hv hts
  subst heq
  exact h2

/-- C1: cross-generation agreement.  Whenever the v2 parser succeeds,
the v1 parser succeeds too and its result is exactly the generation-1
projection of the v2 result (`eraseData` forgets sentiment,
relationships and metrics pointwise, preserving story and comment
order and counts); in particular, whenever both succeed they agree on
every shared field.  And any generation-1-shaped payload (no
`sentiment`/`relationships`/`metrics` key anywhere) accepted by the v1
parser is accepted by the v2 parser, whose result is the v1 result
enriched with the neutral sentiment defaults, null relationships and
null metrics. -/
theorem C1_cross_generation_agreement :
    (∀ (raw : Json) (d1 : V1.HackerNewsData) (d2 : V2.HackerNewsData),
      HackerNewsParserV1.parseData raw = .ok d1 →
      HackerNewsParserV2.parseData raw = .ok d2 →
      eraseData d2 = d1) ∧
    (∀ (raw : Json) (d1 : V1.HackerNewsData),
      noExtKeys raw = true →
      HackerNewsParserV1.parseData raw = .ok d1 →
      HackerNewsParserV2.parseData raw = .ok (enrichData d1)) := by
  constructor
  · intro raw d1 d2 h1 h2
    have h3 := erase_data_of_v2 h2
    rw [h1] at h3
    injection h3 with h4
    exact h4.symm
  · exact fun raw d1 hn h => enrich_data_of_v1 hn h

/-- C1 witness: both clauses at the concrete generation-1 payload
`gen1Payload` (one story, one comment, no generation-2 keys). -/
theorem C1_cross_generation_agreement_witness :
    eraseData (enrichData gen1Parsed) = gen1Parsed ∧
    HackerNewsParserV2.parseData (.obj gen1Payload) =
      .ok (enrichData gen1Parsed) := by
  have hb := C1_cross_generation_agreement.2 (.obj gen1Payload) gen1Parsed rfl rfl
  exact ⟨C1_cross_generation_agreement.1 (.obj gen1Payload) gen1Parsed
    (enrichData gen1Parsed) rfl hb, hb⟩

end HN
